import Mathlib

/-!
Verification of the scene-to-prompt demonstration script (`main.py`).

The script manipulates three kinds of Python values only: strings, lists and
dicts with string keys.  `PyVal` is a shallow embedding of that fragment.
Partial operations of the Python runtime (dict subscription, iteration,
`str.join` over non-strings, JSON encoding and decoding) are modelled with
`Option`, where `none` stands for the exception Python would raise.

All executable definitions are written with constructor-shaped accumulators or
explicit fuel so that concrete runs reduce inside the kernel.
-/

set_option maxRecDepth 20000
set_option maxHeartbeats 16000000

/-- Values of the Python fragment used by the script: `str`, `list`, and
`dict` with string keys (represented as an association list in insertion
order, as Python dicts preserve insertion order). -/
inductive PyVal where
  | str : String → PyVal
  | list : List PyVal → PyVal
  | dict : List (String × PyVal) → PyVal

/-- Tail-recursive character-list equality (kernel-friendly `==` on strings). -/
def beqChars : List Char → List Char → Bool
  | [], [] => true
  | a :: as, b :: bs => a == b && beqChars as bs
  | _, _ => false

/-- Dict lookup.  A Python dict literal with a repeated key keeps the binding
written last, so the search prefers later entries; the dict literals of this
script all have distinct keys. -/
def dictGet : List (String × PyVal) → String → Option PyVal
  | [], _ => none
  | (k, v) :: tl, key =>
    match dictGet tl key with
    | some r => some r
    | none => if beqChars k.data key.data then some v else none

/-- `v[key]` for a string key: succeeds only on dicts holding the key.
Subscripting a list or a string with a string key raises `TypeError` in
Python, and a missing key raises `KeyError`; both are modelled by `none`. -/
def PyVal.getItem (v : PyVal) (key : String) : Option PyVal :=
  match v with
  | .dict kvs => dictGet kvs key
  | _ => none

/-- Reads a Python `str` value.  The script interpolates scene fields into
f-strings, which applies `str(x)`; on the `str` fields required by the data
model this is the identity.  For non-`str` values Python would fall back to a
`repr`-style rendering; that branch is outside the data model, is exercised by
no claim, and is modelled as failure. -/
def PyVal.asStr : PyVal → Option String
  | .str s => some s
  | _ => none

/-- Python iteration over a value: a list yields its elements, a string its
one-character substrings, a dict its keys.  Iterating anything else raises
`TypeError`, modelled by `none`. -/
def PyVal.asSeq : PyVal → Option (List PyVal)
  | .list vs => some vs
  | .str s => some (s.data.map (fun c => PyVal.str (String.mk [c])))
  | .dict kvs => some (kvs.map (fun kv => PyVal.str kv.1))

/-- `sep.join(xs)` for Python strings. -/
def joinWith (sep : String) : List String → String
  | [] => ""
  | [x] => x
  | x :: xs => x ++ sep ++ joinWith sep xs

/-- Effectful map over a list (Python raises the first exception hit). -/
def mapO {α β : Type} (f : α → Option β) : List α → Option (List β)
  | [] => some []
  | a :: as => do
    let b ← f a
    let bs ← mapO f as
    pure (b :: bs)

/-- One line of the object list, translated from the comprehension body
`f"- {obj['name']}: Made of {obj['material']}. Positioned at: {obj['position']}. Tags: {', '.join(obj['tags'])}."`
in `create_curator_prompt` (`main.py` line 76).  The f-string reads the four
fields left to right; `', '.join` requires every tag to be a string. -/
def objectLine (obj : PyVal) : Option String := do
  let nameV ← obj.getItem "name"
  let name ← nameV.asStr
  let materialV ← obj.getItem "material"
  let material ← materialV.asStr
  let positionV ← obj.getItem "position"
  let position ← positionV.asStr
  let tagsV ← obj.getItem "tags"
  let tagVs ← tagsV.asSeq
  let tags ← mapO PyVal.asStr tagVs
  pure ("- " ++ name ++ ": Made of " ++ material ++ ". Positioned at: " ++
    position ++ ". Tags: " ++ joinWith ", " tags ++ ".")

/-- `"\n".join([... for obj in scene['objects']])` (`main.py` lines 75-78). -/
def object_descriptions (objs : List PyVal) : Option String :=
  (mapO objectLine objs).map (joinWith "\n")

/-- Literal template text up to the `scene_name` slot (`main.py` lines 80-85). -/
def tplA : String := "\n    **Persona Instruction:**\n    You are an expert virtual curator and interior design storyteller for a high-end spatial computing platform. Your task is to transform raw 3D scene data into a rich, evocative, and engaging narrative. Do not just list the objects. Instead, weave them into a cohesive story that describes the atmosphere, the lifestyle of the imagined owner, and the interplay between the elements.\n\n    **Contextual Scene Data:**\n    - Scene Name: "

/-- Literal template text between the `scene_name` and `overall_style` slots. -/
def tplB : String := "\n    - Dominant Style: "

/-- Literal template text between the `overall_style` and lighting-type slots. -/
def tplC : String := "\n    - Lighting Conditions: "

/-- Literal template text between the two lighting slots. -/
def tplD : String := " from "

/-- Literal template text between the lighting-source slot and the object
block; it ends with the four spaces that indent the interpolation site
`    {object_descriptions}` (`main.py` line 89). -/
def tplE : String := "\n    - Objects in Scene:\n    "

/-- Literal template text after the object block: the output-structure
instructions and the closing constraint (`main.py` lines 90-104). -/
def tplF : String := "\n\n    **Task & Output Structure:**\n    Based on the data above, generate a JSON object with three distinct keys: \"title\", \"narrative\", and \"design_suggestions\".\n\n    1.  **title**: Create a short, catchy, and descriptive title for this scene.\n    2.  **narrative**: Write a detailed, multi-paragraph story about the space.\n        - Start by describing the overall feeling and atmosphere created by the lighting and style.\n        - Describe how the main furniture pieces (like the sofa and table) anchor the space.\n        - Integrate the decorative elements (plant, art) into the narrative, explaining how they contribute to the mood.\n        - Imply the personality of the person who lives here through your description.\n    3.  **design_suggestions**: Provide three actionable design suggestions as a list of strings. These should be creative ideas to enhance the space further, based on the existing elements. For example, suggest adding a complementary texture, a specific type of rug, or another piece of decor.\n\n    **Constraint:**\n    Your final output must be a single, valid JSON object and nothing else. Do not include any explanatory text before or after the JSON.\n    "

/-- The f-string template of `create_curator_prompt` with its five slots. -/
def promptTemplate (sn st lt ls od : String) : String :=
  tplA ++ sn ++ tplB ++ st ++ tplC ++ lt ++ tplD ++ ls ++ tplE ++ od ++ tplF

/-- `create_curator_prompt(scene)` (`main.py` lines 68-105): first the object
block is built from `scene['objects']`, then the template f-string reads
`scene['scene_name']`, `scene['overall_style']`, `scene['lighting']['type']`
and `scene['lighting']['source']` in template order. -/
def create_curator_prompt (scene : PyVal) : Option String := do
  let objsV ← scene.getItem "objects"
  let objs ← objsV.asSeq
  let od ← object_descriptions objs
  let snV ← scene.getItem "scene_name"
  let sn ← snV.asStr
  let stV ← scene.getItem "overall_style"
  let st ← stV.asStr
  let lightingV ← scene.getItem "lighting"
  let ltV ← lightingV.getItem "type"
  let lt ← ltV.asStr
  let lsV ← lightingV.getItem "source"
  let ls ← lsV.asStr
  pure (promptTemplate sn st lt ls od)

/-- A call to `create_curator_prompt` as observed by the caller: Python passes
the scene object by reference, and the function body consists solely of two
assignments to fresh local names and a return, with no mutating statement or
call, so the caller gets the result together with the untouched scene. -/
def create_curator_prompt_call (scene : PyVal) : Option String × PyVal :=
  (create_curator_prompt scene, scene)

/-- The hand-authored scene literal `scene_data` (`main.py` lines 17-61). -/
def scene_data : PyVal := .dict [
  ("scene_name", .str "Modern Loft Living Room"),
  ("overall_style", .str "Minimalist, Industrial"),
  ("lighting", .dict [
    ("type", .str "Natural, bright afternoon sun"),
    ("source", .str "Large floor-to-ceiling windows")]),
  ("objects", .list [
    .dict [("id", .str "sofa_01"), ("name", .str "Leather Sofa"),
      ("tags", .list [.str "seating", .str "main furniture", .str "comfortable"]),
      ("material", .str "Distressed brown leather"),
      ("position", .str "Center of the room, facing the windows")],
    .dict [("id", .str "table_01"), ("name", .str "Concrete Coffee Table"),
      ("tags", .list [.str "table", .str "centerpiece", .str "functional"]),
      ("material", .str "Polished concrete with steel legs"),
      ("position", .str "In front of the leather sofa")],
    .dict [("id", .str "plant_01"), ("name", .str "Fiddle Leaf Fig"),
      ("tags", .list [.str "plant", .str "organic", .str "decoration", .str "life"]),
      ("material", .str "Green leaves, terracotta pot"),
      ("position", .str "In the corner, near the windows")],
    .dict [("id", .str "lamp_01"), ("name", .str "Arc Floor Lamp"),
      ("tags", .list [.str "lighting", .str "modern", .str "accent"]),
      ("material", .str "Brushed nickel"),
      ("position", .str "Arching over the sofa from behind")],
    .dict [("id", .str "art_01"), ("name", .str "Abstract Painting"),
      ("tags", .list [.str "art", .str "wall decor", .str "color accent"]),
      ("material", .str "Canvas with bold blue and yellow strokes"),
      ("position", .str "On the exposed brick wall behind the sofa")]])]

/-- The hardcoded mock LLM reply `mock_response` (`main.py` lines 128-136). -/
def mock_response : PyVal := .dict [
  ("title", .str "Sun-Drenched Industrial Serenity"),
  ("narrative", .str "As the bright afternoon sun streams through vast, floor-to-ceiling windows, it illuminates a space that is both raw and refined. This modern loft is a sanctuary of minimalist industrial design, where every object feels intentional. The centerpiece is a handsome, distressed brown leather sofa, its worn texture inviting you to sink in and relax. It faces the light, suggesting a resident who appreciates warmth and openness.\n\nIn front of it, a polished concrete coffee table stands as a testament to functional art, its cool surface and steel legs providing a stark, beautiful contrast to the sofa\x27s warmth. Life is breathed into the space by a tall Fiddle Leaf Fig, its vibrant green leaves reaching for the sun from a terracotta pot in the corner. Above, a brushed nickel arc lamp elegantly sweeps over the seating area, ready to provide a focused glow as day turns to night. The entire scene is anchored by a bold, abstract painting on the exposed brick wall, its energetic blue and yellow strokes infusing the calm space with a burst of creative spirit. This is clearly the home of a discerning individual with an eye for design and a love for uncluttered, light-filled living."),
  ("design_suggestions", .list [
    .str "Add a soft, high-pile wool rug in a neutral grey or cream color under the sofa and coffee table to soften the concrete and add textural warmth.",
    .str "Introduce a set of floating wooden shelves on the brick wall to display books or curated objects, adding a personal touch.",
    .str "Consider adding a single, comfortable armchair in a contrasting fabric like dark blue velvet to create a cozy reading nook."])]

/-- Lower-case hexadecimal digit, as Python's `json` module emits. -/
def hexDig (n : Nat) : Char :=
  if n < 10 then Char.ofNat (48 + n) else Char.ofNat (87 + n)

/-- A `\uXXXX` escape for a code unit. -/
def uEsc (n : Nat) : String :=
  String.mk ['\\', 'u', hexDig (n / 4096 % 16), hexDig (n / 256 % 16),
    hexDig (n / 16 % 16), hexDig (n % 16)]

/-- JSON escaping of one character, following `json.dumps` with its default
`ensure_ascii=True`: the two-character escapes for quote, backslash and the
common control characters, and `\uXXXX` (a surrogate pair above the basic
plane) for the remaining control and all non-ASCII characters. -/
def escChar (c : Char) : String :=
  if c = '"' then "\\\""
  else if c = '\\' then "\\\\"
  else if c = '\n' then "\\n"
  else if c = '\t' then "\\t"
  else if c = '\r' then "\\r"
  else if c = '\x08' then "\\b"
  else if c = '\x0c' then "\\f"
  else if c.toNat < 32 ∨ 126 < c.toNat then
    if c.toNat < 65536 then uEsc c.toNat
    else uEsc (55296 + (c.toNat - 65536) / 1024) ++ uEsc (56320 + (c.toNat - 65536) % 1024)
  else String.mk [c]

/-- Prepends the reversal of the first list (constructor-shaped accumulator). -/
def pushRev : List Char → List Char → List Char
  | [], acc => acc
  | c :: cs, acc => pushRev cs (c :: acc)

/-- Escapes a character list, building the output reversed on `acc`. -/
def escList : List Char → List Char → List Char
  | [], acc => acc
  | c :: cs, acc => escList cs (pushRev (escChar c).data acc)

/-- A JSON string literal for `s`, double quotes included. -/
def dumpStr (s : String) : String :=
  String.mk (List.reverse ('"' :: escList s.data ['"']))

/-- `n` spaces. -/
def spaces : Nat → String
  | 0 => ""
  | n + 1 => spaces n ++ " "

mutual
/-- `json.dumps(v, indent=2)` at indentation level `ind`, translated from the
CPython encoder: with an indent, every container item starts on a fresh line
indented two further spaces, the item separator is `\x2c` plus that newline
and indent, the key separator is a colon and space, and empty containers
render with no inner whitespace.  The fuel models Python's recursion limit on
deeply nested data; the values of this script are three levels deep. -/
def dumpsV : Nat → Nat → PyVal → Option String
  | 0, _, _ => none
  | _, _, .str s => some (dumpStr s)
  | _, _, .list [] => some "[]"
  | fuel + 1, ind, .list (v :: vs) => do
    let hd ← dumpsV fuel (ind + 2) v
    let tl ← dumpsItems fuel (ind + 2) vs
    some ("[\n" ++ spaces (ind + 2) ++ hd ++ tl ++ "\n" ++ spaces ind ++ "]")
  | _, _, .dict [] => some "\x7b\x7d"
  | fuel + 1, ind, .dict ((k, v) :: kvs) => do
    let hd ← dumpsV fuel (ind + 2) v
    let tl ← dumpsEntries fuel (ind + 2) kvs
    some ("\x7b\n" ++ spaces (ind + 2) ++ dumpStr k ++ ": " ++ hd ++ tl ++
      "\n" ++ spaces ind ++ "\x7d")

/-- Renders `,\n<indent><item>` for each remaining list item. -/
def dumpsItems : Nat → Nat → List PyVal → Option String
  | 0, _, _ => none
  | _, _, [] => some ""
  | fuel + 1, ind, v :: vs => do
    let hd ← dumpsV fuel ind v
    let tl ← dumpsItems fuel ind vs
    some (",\n" ++ spaces ind ++ hd ++ tl)

/-- Renders `,\n<indent>"key": <value>` for each remaining dict entry. -/
def dumpsEntries : Nat → Nat → List (String × PyVal) → Option String
  | 0, _, _ => none
  | _, _, [] => some ""
  | fuel + 1, ind, (k, v) :: kvs => do
    let hd ← dumpsV fuel ind v
    let tl ← dumpsEntries fuel ind kvs
    some (",\n" ++ spaces ind ++ dumpStr k ++ ": " ++ hd ++ tl)
end

/-- `json.dumps(x, indent=2)` as called on `main.py` line 138.  The fuel of
1000 models `sys.getrecursionlimit()`. -/
def json_dumps (v : PyVal) : Option String :=
  dumpsV 1000 0 v

/-- Numeric value of a hexadecimal digit. -/
def hexVal (c : Char) : Option Nat :=
  if 48 ≤ c.toNat ∧ c.toNat ≤ 57 then some (c.toNat - 48)
  else if 97 ≤ c.toNat ∧ c.toNat ≤ 102 then some (c.toNat - 87)
  else if 65 ≤ c.toNat ∧ c.toNat ≤ 70 then some (c.toNat - 55)
  else none

/-- Skips JSON whitespace (space, newline, tab, carriage return). -/
def skipWs : List Char → List Char
  | c :: cs => if c = ' ' ∨ c = '\n' ∨ c = '\t' ∨ c = '\r' then skipWs cs else c :: cs
  | [] => []

/-- Parses the body of a JSON string literal after its opening quote,
accumulating decoded characters reversed on `acc`; handles the named escapes
and `\uXXXX`, combining surrogate pairs into one code point.  A lone
surrogate, which CPython would smuggle into a `str`, is not representable in
a Lean `String` and is modelled as a parse failure; no output of `json.dumps`
contains one. -/
def parseStrBody : List Char → List Char → Option (String × List Char)
  | acc, c :: cs =>
    if c = '"' then some (String.mk acc.reverse, cs)
    else if c = '\\' then
      match cs with
      | [] => none
      | e :: cs2 =>
        if e = '"' then parseStrBody ('"' :: acc) cs2
        else if e = '\\' then parseStrBody ('\\' :: acc) cs2
        else if e = '/' then parseStrBody ('/' :: acc) cs2
        else if e = 'b' then parseStrBody ('\x08' :: acc) cs2
        else if e = 'f' then parseStrBody ('\x0c' :: acc) cs2
        else if e = 'n' then parseStrBody ('\n' :: acc) cs2
        else if e = 'r' then parseStrBody ('\r' :: acc) cs2
        else if e = 't' then parseStrBody ('\t' :: acc) cs2
        else if e = 'u' then
          match cs2 with
          | h1 :: h2 :: h3 :: h4 :: cs3 =>
            match hexVal h1, hexVal h2, hexVal h3, hexVal h4 with
            | some a, some b, some c1, some d =>
              let n := a * 4096 + b * 256 + c1 * 16 + d
              if n < 55296 ∨ 57343 < n then parseStrBody (Char.ofNat n :: acc) cs3
              else if n ≤ 56319 then
                match cs3 with
                | '\\' :: 'u' :: g1 :: g2 :: g3 :: g4 :: cs4 =>
                  match hexVal g1, hexVal g2, hexVal g3, hexVal g4 with
                  | some a2, some b2, some c2, some d2 =>
                    let m := a2 * 4096 + b2 * 256 + c2 * 16 + d2
                    if 56320 ≤ m ∧ m ≤ 57343 then
                      parseStrBody (Char.ofNat (65536 + (n - 55296) * 1024 + (m - 56320)) :: acc) cs4
                    else none
                  | _, _, _, _ => none
                | _ => none
              else none
            | _, _, _, _ => none
          | _ => none
        else none
    else parseStrBody (c :: acc) cs
  | _, [] => none

mutual
/-- Parses one JSON value of the fragment this program produces and consumes:
strings, arrays and objects.  Numbers, booleans and null have no counterpart
in `PyVal` and nothing in this script emits them, so they are modelled as a
parse failure.  The fuel only bounds the recursion and is passed in large
enough to be inexhaustible on any input the script handles. -/
def parseVal : Nat → List Char → Option (PyVal × List Char)
  | 0, _ => none
  | fuel + 1, cs =>
    match skipWs cs with
    | '"' :: rest => (parseStrBody [] rest).map (fun p => (PyVal.str p.1, p.2))
    | '[' :: rest =>
      (match skipWs rest with
       | ']' :: r2 => some (PyVal.list [], r2)
       | r1 => (parseItems fuel r1).map (fun p => (PyVal.list p.1, p.2)))
    | '\x7b' :: rest =>
      (match skipWs rest with
       | '\x7d' :: r2 => some (PyVal.dict [], r2)
       | r1 => (parseEntries fuel r1).map (fun p => (PyVal.dict p.1, p.2)))
    | _ => none

/-- Parses the comma-separated items of a non-empty JSON array up to `]`. -/
def parseItems : Nat → List Char → Option (List PyVal × List Char)
  | 0, _ => none
  | fuel + 1, cs => do
    let (v, r) ← parseVal fuel cs
    match skipWs r with
    | ',' :: r2 => do
      let (vs, r3) ← parseItems fuel r2
      some (v :: vs, r3)
    | ']' :: r2 => some ([v], r2)
    | _ => none

/-- Parses the comma-separated entries of a non-empty JSON object up to the
closing brace. -/
def parseEntries : Nat → List Char → Option (List (String × PyVal) × List Char)
  | 0, _ => none
  | fuel + 1, cs =>
    match skipWs cs with
    | '"' :: rest => do
      let (k, r) ← parseStrBody [] rest
      match skipWs r with
      | ':' :: r2 => do
        let (v, r3) ← parseVal fuel r2
        match skipWs r3 with
        | ',' :: r4 => do
          let (kvs, r5) ← parseEntries fuel r4
          some ((k, v) :: kvs, r5)
        | '\x7d' :: r4 => some ([(k, v)], r4)
        | _ => none
      | _ => none
    | _ => none
end

/-- `json.loads(s)` as called on `main.py` line 151, restricted to the JSON
fragment above; trailing whitespace is accepted, trailing garbage raises
(`none`). -/
def json_loads (s : String) : Option PyVal :=
  match parseVal 1000000000 s.data with
  | some (v, rest) =>
    match skipWs rest with
    | [] => some v
    | _ => none
  | none => none

/-- `generate_scene_content(scene_data)` (`main.py` lines 109-138): builds the
curator prompt, prints a banner, the prompt and a separator, and returns the
mock response serialized with `json.dumps(mock_response, indent=2)`.  The
result pairs the printed lines with the returned string. -/
def generate_scene_content (scene : PyVal) : Option (List String × String) := do
  let prompt ← create_curator_prompt scene
  let out ← json_dumps mock_response
  pure (["--- Generated Prompt for LLM ---", prompt, "---------------------------------"], out)

/-- The `__main__` block (`main.py` lines 142-152) under its intended
semantics, in which the top-level `await` performs the call.  (As written the
script is rejected by CPython with `SyntaxError: 'await' outside function`,
so no statement of the block ever runs; this model captures the execution the
block describes.)  The result is the full ordered list of printed lines. -/
def main_model (scene : PyVal) : Option (List String) := do
  let (printed, generated_content_json) ← generate_scene_content scene
  let content_obj ← json_loads generated_content_json
  let titleV ← content_obj.getItem "title"
  let title ← titleV.asStr
  pure (("Generating 3D-aware content for the scene..." :: printed) ++
    ["\n--- Generated Content (JSON Output) ---", generated_content_json,
     "--------------------------------------", "\nTitle: " ++ title])

/-- The printed output of the intended run of the script on its literal scene. -/
def main_output : Option (List String) :=
  main_model scene_data

/-- Typed view of a scene object per the data model: the spec's `displayName`
is the dict entry `name`; `id`, unused by the composer, is not part of it. -/
structure SceneObject where
  displayName : String
  material : String
  position : String
  tags : List String
deriving DecidableEq

/-- Typed view of a scene description per the data model. -/
structure SceneDescription where
  scene_name : String
  overall_style : String
  lighting_type : String
  lighting_source : String
  objects : List SceneObject
deriving DecidableEq

/-- Reads the typed view of one object out of a `PyVal`; succeeds exactly when
the object carries the fields the composer touches, with string values. -/
def readObject (v : PyVal) : Option SceneObject := do
  let nameV ← v.getItem "name"
  let name ← nameV.asStr
  let materialV ← v.getItem "material"
  let material ← materialV.asStr
  let positionV ← v.getItem "position"
  let position ← positionV.asStr
  let tagsV ← v.getItem "tags"
  let tagVs ← tagsV.asSeq
  let tags ← mapO PyVal.asStr tagVs
  pure ⟨name, material, position, tags⟩

/-- Reads the typed view of a whole scene; succeeds exactly when the value
conforms to the data model as the composer consumes it. -/
def readScene (v : PyVal) : Option SceneDescription := do
  let objsV ← v.getItem "objects"
  let objVs ← objsV.asSeq
  let objs ← mapO readObject objVs
  let snV ← v.getItem "scene_name"
  let sn ← snV.asStr
  let stV ← v.getItem "overall_style"
  let st ← stV.asStr
  let lightingV ← v.getItem "lighting"
  let ltV ← lightingV.getItem "type"
  let lt ← ltV.asStr
  let lsV ← lightingV.getItem "source"
  let ls ← lsV.asStr
  pure ⟨sn, st, lt, ls, objs⟩

/-- The object line exactly as the spec prescribes it: `- {displayName}: Made
of {material}. Positioned at: {position}. Tags: {tag1}, {tag2}, ...` with the
tags joined by a comma and space and a trailing period. -/
def specObjectLine (o : SceneObject) : String :=
  "- " ++ o.displayName ++ ": Made of " ++ o.material ++ ". Positioned at: " ++
    o.position ++ ". Tags: " ++ joinWith ", " o.tags ++ "."

/-- The typed view of the literal `scene_data`. -/
def fixtureScene : SceneDescription :=
  ⟨"Modern Loft Living Room", "Minimalist, Industrial",
   "Natural, bright afternoon sun", "Large floor-to-ceiling windows",
   [⟨"Leather Sofa", "Distressed brown leather",
     "Center of the room, facing the windows", ["seating", "main furniture", "comfortable"]⟩,
    ⟨"Concrete Coffee Table", "Polished concrete with steel legs",
     "In front of the leather sofa", ["table", "centerpiece", "functional"]⟩,
    ⟨"Fiddle Leaf Fig", "Green leaves, terracotta pot",
     "In the corner, near the windows", ["plant", "organic", "decoration", "life"]⟩,
    ⟨"Arc Floor Lamp", "Brushed nickel",
     "Arching over the sofa from behind", ["lighting", "modern", "accent"]⟩,
    ⟨"Abstract Painting", "Canvas with bold blue and yellow strokes",
     "On the exposed brick wall behind the sofa", ["art", "wall decor", "color accent"]⟩]⟩

/-- A conforming scene with an empty object list. -/
def emptyRoomScene : PyVal := .dict [
  ("scene_name", .str "Bare Studio"),
  ("overall_style", .str "Empty"),
  ("lighting", .dict [("type", .str "Dim"), ("source", .str "One bulb")]),
  ("objects", .list [])]

/-- A conforming scene with exactly one object. -/
def oneChairScene : PyVal := .dict [
  ("scene_name", .str "Reading Corner"),
  ("overall_style", .str "Cozy"),
  ("lighting", .dict [("type", .str "Warm"), ("source", .str "A lamp")]),
  ("objects", .list [.dict [
    ("id", .str "chair_01"), ("name", .str "Armchair"),
    ("tags", .list [.str "seating"]),
    ("material", .str "Velvet"),
    ("position", .str "By the window")]])]

/-- Splits a character list at every newline; a string with no newline is one
line, and every newline terminates a line, so there is always at least one
(possibly empty) line. -/
def linesOf : List Char → List (List Char)
  | [] => [[]]
  | c :: cs =>
    if c = '\n' then [] :: linesOf cs
    else
      match linesOf cs with
      | l :: ls => (c :: l) :: ls
      | [] => [[c]]

/-- Whether a line begins with the two characters `- `. -/
def startsDash : List Char → Bool
  | c :: d :: _ => c == '-' && d == ' '
  | _ => false

/-- Whether a line begins with a space. -/
def startsSpace : List Char → Bool
  | c :: _ => c == ' '
  | _ => false

/-- The number of lines of `s` that start with `- `. -/
def dashLinesCount (s : String) : Nat :=
  ((linesOf s.data).filter startsDash).length

/-- Scanning state for the line-counting automaton: at a line start, just
after a line-initial dash, or past the point where the line can still count. -/
inductive LineSt where
  | start : LineSt
  | dash : LineSt
  | mid : LineSt
deriving DecidableEq

/-- One automaton step: a newline returns to a line start; a line-initial
dash followed by a space counts the line. -/
def dashStep : Nat × LineSt → Char → Nat × LineSt
  | (n, st), c =>
    if c = '\n' then (n, .start)
    else
      match st with
      | .start => if c = '-' then (n, .dash) else (n, .mid)
      | .dash => if c = ' ' then (n + 1, .mid) else (n, .mid)
      | .mid => (n, .mid)

/-- The automaton run with the state held in separate arguments, which keeps
every intermediate state in constructor form and so evaluates in bounded
stack space (it agrees with the `dashStep` fold by `dashRun_foldl`). -/
def dashRun : Nat → LineSt → List Char → Nat × LineSt
  | n, st, [] => (n, st)
  | n, st, c :: cs =>
    if c = '\n' then dashRun n .start cs
    else
      match st with
      | .start => if c = '-' then dashRun n .dash cs else dashRun n .mid cs
      | .dash => if c = ' ' then dashRun (n + 1) .mid cs else dashRun n .mid cs
      | .mid => dashRun n .mid cs

/-- Single-pass computation of `dashLinesCount` (kernel-friendly; the two
agree by `dashFold_eq`). -/
def dashFold (s : String) : Nat :=
  (dashRun 0 .start s.data).1

/-- Number of `- `-initial lines in a list of lines. -/
def csum (ls : List (List Char)) : Nat :=
  (ls.filter startsDash).length

/-- Meaning of an automaton state for the rest of the input: the dash count
still to be contributed, given how much of the current line has been seen. -/
def gCount : LineSt → List Char → Nat
  | .start, cs => csum (linesOf cs)
  | .dash, cs =>
    match linesOf cs with
    | l :: ls => (if startsSpace l then 1 else 0) + csum ls
    | [] => 0
  | .mid, cs =>
    match linesOf cs with
    | _ :: ls => csum ls
    | [] => 0

/-- A rendered object line: starts with `- ` and has no further newline. -/
def lineOK (s : String) : Prop :=
  ∃ rest, s.data = '-' :: ' ' :: rest ∧ '\n' ∉ rest

/-- Whether `s` is free of newline characters. -/
def noNLb (s : String) : Bool :=
  s.data.all (fun c => !(c == '\n'))

/-- Whether every interpolated free-text field of an object is newline-free. -/
def objNoNL (o : SceneObject) : Bool :=
  noNLb o.displayName && noNLb o.material && noNLb o.position && o.tags.all noNLb

/-- Whether every interpolated free-text field of a scene is newline-free. -/
def sceneNoNL (sc : SceneDescription) : Bool :=
  noNLb sc.scene_name && noNLb sc.overall_style && noNLb sc.lighting_type &&
    noNLb sc.lighting_source && sc.objects.all objNoNL

/-- Whether `pat` occurs at the head of the list. -/
def hasPrefixC : List Char → List Char → Bool
  | [], _ => true
  | _ :: _, [] => false
  | p :: ps, c :: cs => p == c && hasPrefixC ps cs

/-- Whether `pat` occurs anywhere in the list (naive scan). -/
def subSearch (pat : List Char) : List Char → Bool
  | [] => hasPrefixC pat []
  | c :: cs => hasPrefixC pat (c :: cs) || subSearch pat cs

/-- Whether the string `pat` occurs as a contiguous substring of `s`. -/
def strContains (s pat : String) : Bool :=
  subSearch pat.data s.data

mutual
/-- Fuel-indexed structural equality on `PyVal` (sound: `pyBeq_sound_all`). -/
def pyBeq : Nat → PyVal → PyVal → Bool
  | 0, _, _ => false
  | fuel + 1, v, w =>
    match v, w with
    | .str a, .str b => beqChars a.data b.data
    | .list as, .list bs => pyBeqL fuel as bs
    | .dict as, .dict bs => pyBeqD fuel as bs
    | _, _ => false

/-- Fuel-indexed equality on lists of `PyVal`. -/
def pyBeqL : Nat → List PyVal → List PyVal → Bool
  | 0, _, _ => false
  | fuel + 1, vs, ws =>
    match vs, ws with
    | [], [] => true
    | a :: as, b :: bs => pyBeq fuel a b && pyBeqL fuel as bs
    | _, _ => false

/-- Fuel-indexed equality on dict entry lists. -/
def pyBeqD : Nat → List (String × PyVal) → List (String × PyVal) → Bool
  | 0, _, _ => false
  | fuel + 1, ds, es =>
    match ds, es with
    | [], [] => true
    | (k, a) :: as, (k2, b) :: bs =>
      beqChars k.data k2.data && pyBeq fuel a b && pyBeqD fuel as bs
    | _, _ => false
end

/-- Equality check on optional `PyVal`s with ample fuel. -/
def optPyBeq : Option PyVal → Option PyVal → Bool
  | some a, some b => pyBeq 1000 a b
  | none, none => true
  | _, _ => false

theorem beqChars_eq : ∀ {as bs : List Char}, beqChars as bs = true → as = bs := by
  intro as
  induction as with
  | nil => intro bs h; cases bs with
    | nil => rfl
    | cons b bs => simp [beqChars] at h
  | cons a as ih =>
    intro bs h
    cases bs with
    | nil => simp [beqChars] at h
    | cons b bs =>
      simp only [beqChars, Bool.and_eq_true, beq_iff_eq] at h
      obtain ⟨rfl, h2⟩ := h
      rw [ih h2]

theorem eq_of_data_eq : ∀ {s t : String}, s.data = t.data → s = t := by
  intro s t h
  cases s
  cases t
  simp only at h
  rw [h]

theorem pyBeq_sound_all : ∀ fuel : Nat,
    (∀ v w, pyBeq fuel v w = true → v = w) ∧
    (∀ vs ws, pyBeqL fuel vs ws = true → vs = ws) ∧
    (∀ ds es, pyBeqD fuel ds es = true → ds = es) := by
  intro fuel
  induction fuel with
  | zero =>
    exact ⟨fun v w h => Bool.noConfusion h, fun vs ws h => Bool.noConfusion h,
      fun ds es h => Bool.noConfusion h⟩
  | succ n ih =>
    obtain ⟨ihV, ihL, ihD⟩ := ih
    refine ⟨fun v w h => ?_, fun vs ws h => ?_, fun ds es h => ?_⟩
    · cases v with
      | str a =>
        cases w with
        | str b => exact congrArg PyVal.str (eq_of_data_eq (beqChars_eq h))
        | list bs => exact Bool.noConfusion h
        | dict bs => exact Bool.noConfusion h
      | list as =>
        cases w with
        | str b => exact Bool.noConfusion h
        | list bs => exact congrArg PyVal.list (ihL _ _ h)
        | dict bs => exact Bool.noConfusion h
      | dict as =>
        cases w with
        | str b => exact Bool.noConfusion h
        | list bs => exact Bool.noConfusion h
        | dict bs => exact congrArg PyVal.dict (ihD _ _ h)
    · cases vs with
      | nil =>
        cases ws with
        | nil => rfl
        | cons b bs => exact Bool.noConfusion h
      | cons a as =>
        cases ws with
        | nil => exact Bool.noConfusion h
        | cons b bs =>
          have h0 : (pyBeq n a b && pyBeqL n as bs) = true := h
          have h2 : pyBeq n a b = true ∧ pyBeqL n as bs = true := by
            simpa [Bool.and_eq_true] using h0
          rw [ihV _ _ h2.1, ihL _ _ h2.2]
    · cases ds with
      | nil =>
        cases es with
        | nil => rfl
        | cons e es2 => exact Bool.noConfusion h
      | cons d ds2 =>
        cases es with
        | nil => exact Bool.noConfusion h
        | cons e es2 =>
          obtain ⟨k, a⟩ := d
          obtain ⟨k2, b⟩ := e
          have h0 : (beqChars k.data k2.data && pyBeq n a b && pyBeqD n ds2 es2) = true := h
          have h2 : beqChars k.data k2.data = true ∧ pyBeq n a b = true ∧
              pyBeqD n ds2 es2 = true := by
            simpa [Bool.and_eq_true, and_assoc] using h0
          rw [eq_of_data_eq (beqChars_eq h2.1), ihV _ _ h2.2.1, ihD _ _ h2.2.2]

theorem optPyBeq_eq : ∀ {o₁ o₂ : Option PyVal}, optPyBeq o₁ o₂ = true → o₁ = o₂ := by
  intro o₁ o₂ h
  cases o₁ with
  | none =>
    cases o₂ with
    | none => rfl
    | some b => exact Bool.noConfusion h
  | some a =>
    cases o₂ with
    | none => exact Bool.noConfusion h
    | some b => exact congrArg some ((pyBeq_sound_all 1000).1 _ _ h)

theorem objectLine_eq (v : PyVal) :
    objectLine v = (readObject v).map specObjectLine := by
  simp only [objectLine, readObject, bind]
  cases v.getItem "name" with
  | none => simp
  | some nameV =>
  simp only [Option.some_bind]
  cases nameV.asStr with
  | none => simp
  | some name =>
  simp only [Option.some_bind]
  cases v.getItem "material" with
  | none => simp
  | some materialV =>
  simp only [Option.some_bind]
  cases materialV.asStr with
  | none => simp
  | some material =>
  simp only [Option.some_bind]
  cases v.getItem "position" with
  | none => simp
  | some positionV =>
  simp only [Option.some_bind]
  cases positionV.asStr with
  | none => simp
  | some position =>
  simp only [Option.some_bind]
  cases v.getItem "tags" with
  | none => simp
  | some tagsV =>
  simp only [Option.some_bind]
  cases tagsV.asSeq with
  | none => simp
  | some tagVs =>
  simp only [Option.some_bind]
  cases mapO PyVal.asStr tagVs with
  | none => simp
  | some tags => rfl

theorem mapO_objectLine (objs : List PyVal) :
    mapO objectLine objs = (mapO readObject objs).map (List.map specObjectLine) := by
  induction objs with
  | nil => rfl
  | cons o os ih =>
    simp only [mapO, bind, objectLine_eq, ih]
    cases readObject o with
    | none => simp
    | some so =>
      simp only [Option.map_some', Option.some_bind]
      cases mapO readObject os with
      | none => simp
      | some sos => rfl

theorem render_eq (v : PyVal) (sc : SceneDescription) (h : readScene v = some sc) :
    create_curator_prompt v =
      some (promptTemplate sc.scene_name sc.overall_style sc.lighting_type
        sc.lighting_source (joinWith "\n" (sc.objects.map specObjectLine))) := by
  simp only [readScene, bind, Option.bind_eq_some, Option.pure_def,
    Option.some.injEq] at h
  obtain ⟨objsV, hObjs, objVs, hSeq, objs, hMap, snV, hSnV, sn, hSn, stV, hStV,
    st, hSt, lgV, hLgV, ltV, hLtV, lt, hLt, lsV, hLsV, ls, hLs, hsc⟩ := h
  subst hsc
  simp only [create_curator_prompt, object_descriptions, bind, hObjs,
    Option.some_bind, hSeq, mapO_objectLine, hMap, Option.map_some', hSnV, hSn,
    hStV, hSt, hLgV, hLtV, hLt, hLsV, hLs, Option.pure_def]

theorem strData_append (s t : String) : (s ++ t).data = s.data ++ t.data := by
  cases s
  cases t
  rfl

theorem hasPrefixC_append {p s : List Char} (t : List Char)
    (h : hasPrefixC p s = true) : hasPrefixC p (s ++ t) = true := by
  induction p generalizing s with
  | nil => rfl
  | cons a ps ih =>
    cases s with
    | nil => exact Bool.noConfusion h
    | cons c cs =>
      have h0 : (a == c && hasPrefixC ps cs) = true := h
      simp only [Bool.and_eq_true] at h0
      show (a == c && hasPrefixC ps (cs ++ t)) = true
      simp [h0.1, ih h0.2]

theorem hasPrefixC_self (p t : List Char) : hasPrefixC p (p ++ t) = true := by
  induction p with
  | nil => rfl
  | cons a ps ih =>
    show (a == a && hasPrefixC ps (ps ++ t)) = true
    simp [ih]

theorem subSearch_at_head {p s : List Char} (h : hasPrefixC p s = true) :
    subSearch p s = true := by
  cases s with
  | nil => exact h
  | cons c cs =>
    show (hasPrefixC p (c :: cs) || subSearch p cs) = true
    simp [h]

theorem subSearch_pat_nil (s : List Char) : subSearch [] s = true := by
  cases s with
  | nil => rfl
  | cons c cs => rfl

theorem subSearch_append_right (a : List Char) {p b : List Char}
    (h : subSearch p b = true) : subSearch p (a ++ b) = true := by
  induction a with
  | nil => exact h
  | cons c a2 ih =>
    show (hasPrefixC p (c :: (a2 ++ b)) || subSearch p (a2 ++ b)) = true
    simp [ih]

theorem subSearch_append_left {p a : List Char} (b : List Char)
    (h : subSearch p a = true) : subSearch p (a ++ b) = true := by
  induction a with
  | nil =>
    cases p with
    | nil => exact subSearch_pat_nil b
    | cons q qs => exact Bool.noConfusion h
  | cons c a2 ih =>
    have h0 : (hasPrefixC p (c :: a2) || subSearch p a2) = true := h
    simp only [Bool.or_eq_true] at h0
    show (hasPrefixC p (c :: a2 ++ b) || subSearch p (a2 ++ b)) = true
    rcases h0 with h1 | h2
    · have h3 : hasPrefixC p (c :: (a2 ++ b)) = true := by
        simpa using @hasPrefixC_append p (c :: a2) b h1
      simp [h3]
    · simp [ih h2]

theorem strContains_append_right (a : String) {b pat : String}
    (h : strContains b pat = true) : strContains (a ++ b) pat = true := by
  unfold strContains at h ⊢
  rw [strData_append]
  exact subSearch_append_right _ h

theorem strContains_append_left {a : String} (b : String)
    (h : strContains a pat = true) : strContains (a ++ b) pat = true := by
  unfold strContains at h ⊢
  rw [strData_append]
  exact subSearch_append_left _ h

theorem strContains_self_append (pat b : String) :
    strContains (pat ++ b) pat = true := by
  unfold strContains
  rw [strData_append]
  exact subSearch_at_head (hasPrefixC_self _ _)

/-- Claim C1: for every scene value on which all data-model fields are present
(`readScene` succeeds), `create_curator_prompt` renders for each object exactly
one line of the spec's form `- {displayName}: Made of {material}. Positioned
at: {position}. Tags: {tag1}, {tag2}, ...` — tags joined by a comma-space with
a trailing period — and these lines are joined by single newline separators in
the input object order, with no reordering and no deduplication, interpolated
into the fixed template. -/
theorem c1_object_lines (v : PyVal) (sc : SceneDescription)
    (h : readScene v = some sc) :
    create_curator_prompt v =
      some (promptTemplate sc.scene_name sc.overall_style sc.lighting_type
        sc.lighting_source (joinWith "\n" (sc.objects.map specObjectLine))) :=
  render_eq v sc h

/-- Witness for C1 at the literal scene of the script. -/
theorem c1_object_lines_witness :
    readScene scene_data = some fixtureScene ∧
    create_curator_prompt scene_data =
      some (promptTemplate "Modern Loft Living Room" "Minimalist, Industrial"
        "Natural, bright afternoon sun" "Large floor-to-ceiling windows"
        (joinWith "\n" (fixtureScene.objects.map specObjectLine))) :=
  ⟨by decide, c1_object_lines scene_data fixtureScene (by decide)⟩

/-- Claim C2: on the five-object loft fixture, the composed prompt contains
the leather-sofa line and the scene name and style verbatim. -/
theorem c2_fixture_prompt :
    (create_curator_prompt scene_data).map (fun p =>
      strContains p "- Leather Sofa: Made of Distressed brown leather. Positioned at: Center of the room, facing the windows. Tags: seating, main furniture, comfortable." &&
      strContains p "Modern Loft Living Room" &&
      strContains p "Minimalist, Industrial") = some true := by
  decide

/-- Claim C4: with an empty `objects` sequence the composer succeeds and the
interpolated object-list block is the empty string, the rest of the template
rendered unchanged. -/
theorem c4_empty_objects (v : PyVal) (sc : SceneDescription)
    (h : readScene v = some sc) (he : sc.objects = []) :
    create_curator_prompt v =
      some (promptTemplate sc.scene_name sc.overall_style sc.lighting_type
        sc.lighting_source "") := by
  rw [render_eq v sc h, he]
  rfl

/-- Witness for C4 at a concrete empty-objects scene. -/
theorem c4_empty_objects_witness :
    create_curator_prompt emptyRoomScene =
      some (promptTemplate "Bare Studio" "Empty" "Dim" "One bulb" "") :=
  c4_empty_objects emptyRoomScene ⟨"Bare Studio", "Empty", "Dim", "One bulb", []⟩
    (by decide) rfl

/-- Claim C5: on every input conforming to the data model the composer
returns a value (no exception; the failure branch of the embedding, which
stands for `KeyError`/`TypeError`, is unreachable).  The embedding is a pure
function, which is the no-I/O, no-side-effect reading of the claim. -/
theorem c5_no_failure (v : PyVal) (sc : SceneDescription)
    (h : readScene v = some sc) :
    (create_curator_prompt v).isSome = true := by
  rw [render_eq v sc h]
  rfl

/-- Witness for C5 at the literal scene of the script. -/
theorem c5_no_failure_witness :
    readScene scene_data = some fixtureScene ∧
    (create_curator_prompt scene_data).isSome = true :=
  ⟨by decide, c5_no_failure scene_data fixtureScene (by decide)⟩

/-- Claim C6: a call to the composer hands back the scene value unchanged —
the body contains no mutating statement, so the embedding of a call returns
the argument as-is — and the result depends only on the input value. -/
theorem c6_no_mutation (scene other : PyVal) (hsame : other = scene) :
    (create_curator_prompt_call scene).2 = scene ∧
    create_curator_prompt_call other = create_curator_prompt_call scene :=
  ⟨rfl, by rw [hsame]⟩

/-- Witness for C6 at the literal scene of the script. -/
theorem c6_no_mutation_witness :
    (create_curator_prompt_call scene_data).2 = scene_data ∧
    create_curator_prompt_call scene_data = create_curator_prompt_call scene_data :=
  c6_no_mutation scene_data scene_data rfl

/-- Claim C7: every prompt produced from a conforming scene contains the
literal markers `title`, `narrative` and `design_suggestions`, and the fixed
closing constraint demanding a single valid JSON object and nothing else. -/
theorem c7_template_markers (v : PyVal) (sc : SceneDescription)
    (h : readScene v = some sc) (p : String)
    (hp : create_curator_prompt v = some p) :
    strContains p "title" = true ∧
    strContains p "narrative" = true ∧
    strContains p "design_suggestions" = true ∧
    strContains p "Your final output must be a single, valid JSON object and nothing else. Do not include any explanatory text before or after the JSON." = true := by
  rw [render_eq v sc h] at hp
  have hp2 := Option.some.inj hp
  subst hp2
  refine ⟨?_, ?_, ?_, ?_⟩ <;>
    · simp only [promptTemplate]
      repeat apply strContains_append_right
      decide

/-- Witness for C7 at the literal scene of the script. -/
theorem c7_template_markers_witness :
    (create_curator_prompt scene_data).map (fun p => strContains p "title") =
      some true := by
  obtain ⟨p, hp⟩ : ∃ p, create_curator_prompt scene_data = some p := ⟨_, rfl⟩
  rw [hp, Option.map_some']
  exact congrArg some (c7_template_markers scene_data fixtureScene (by decide) p hp).1

/-- Claim C8: serializing the mock record with `json.dumps(·, indent=2)` and
deserializing the result with `json.loads` gives back the record itself, and
in particular its `title`, `narrative` and `design_suggestions` fields. -/
theorem c8_roundtrip :
    (json_dumps mock_response).bind json_loads = some mock_response ∧
    ((json_dumps mock_response).bind json_loads).bind (fun v => v.getItem "title") =
      mock_response.getItem "title" ∧
    ((json_dumps mock_response).bind json_loads).bind (fun v => v.getItem "narrative") =
      mock_response.getItem "narrative" ∧
    ((json_dumps mock_response).bind json_loads).bind (fun v => v.getItem "design_suggestions") =
      mock_response.getItem "design_suggestions" := by
  have h : optPyBeq ((json_dumps mock_response).bind json_loads)
      (some mock_response) = true := by decide
  have he := optPyBeq_eq h
  refine ⟨he, ?_, ?_, ?_⟩ <;> (rw [he]; rfl)

/-- Claim C10: the string returned by `generate_scene_content` is the fixed
serialization of the hardcoded mock response; any two successful runs return
the same string whatever their input scenes. -/
theorem c10_constant_return (s₁ s₂ : PyVal) (r₁ r₂ : List String × String)
    (h₁ : generate_scene_content s₁ = some r₁)
    (h₂ : generate_scene_content s₂ = some r₂) : r₁.2 = r₂.2 := by
  simp only [generate_scene_content, bind, Option.bind_eq_some, Option.pure_def,
    Option.some.injEq] at h₁ h₂
  obtain ⟨p₁, hp₁, j₁, hj₁, hr₁⟩ := h₁
  obtain ⟨p₂, hp₂, j₂, hj₂, hr₂⟩ := h₂
  subst hr₁
  subst hr₂
  exact Option.some.inj (hj₁.symm.trans hj₂)

/-- Witness for C10: the literal scene and the empty-objects scene get the
same returned string. -/
theorem c10_constant_return_witness :
    (generate_scene_content scene_data).map Prod.snd =
      (generate_scene_content emptyRoomScene).map Prod.snd := by
  obtain ⟨r₁, h₁⟩ : ∃ r, generate_scene_content scene_data = some r := ⟨_, rfl⟩
  obtain ⟨r₂, h₂⟩ : ∃ r, generate_scene_content emptyRoomScene = some r := ⟨_, rfl⟩
  rw [h₁, h₂, Option.map_some', Option.map_some',
    c10_constant_return scene_data emptyRoomScene r₁ r₂ h₁ h₂]

/-- Claim C9, under the intended semantics of the entry point: a successful
run of the `__main__` block prints, in order, the progress line, the prompt
banner, the composed prompt, a separator, the JSON header, the pretty-printed
mock JSON, a separator, and the labeled title line.  As written the script
never runs at all: CPython rejects the module with `SyntaxError: 'await'
outside function` at line 144, so `main_model` captures the execution the
block describes rather than one that occurs. -/
theorem c9_intended_output (scene : PyVal) (out : List String)
    (h : main_model scene = some out) :
    ∃ p j t, create_curator_prompt scene = some p ∧
      json_dumps mock_response = some j ∧
      (json_loads j).bind (fun c => (c.getItem "title").bind PyVal.asStr) = some t ∧
      out = ["Generating 3D-aware content for the scene...",
             "--- Generated Prompt for LLM ---", p, "---------------------------------",
             "\n--- Generated Content (JSON Output) ---", j,
             "--------------------------------------", "\nTitle: " ++ t] := by
  simp only [main_model, bind, Option.bind_eq_some, Option.pure_def,
    Option.some.injEq] at h
  obtain ⟨⟨printed, gcj⟩, hg, c, hc, tV, htV, t, ht, hout⟩ := h
  simp only [generate_scene_content, bind, Option.bind_eq_some, Option.pure_def,
    Option.some.injEq, Prod.mk.injEq] at hg
  obtain ⟨p, hp, j, hj, hprinted, hgcj⟩ := hg
  subst hprinted
  subst hgcj
  refine ⟨p, j, t, hp, hj, ?_, ?_⟩
  · rw [hc, Option.some_bind, htV, Option.some_bind]
    exact ht
  · rw [← hout]
    rfl

/-- Witness for C9's model at the literal scene: the intended run prints
exactly eight items. -/
theorem c9_intended_output_witness : main_output.map List.length = some 8 := by
  have hs : main_output.isSome = true := by decide
  obtain ⟨out, hout⟩ := Option.isSome_iff_exists.mp hs
  rw [hout, Option.map_some']
  obtain ⟨p, j, t, _, _, _, hlist⟩ := c9_intended_output scene_data out hout
  rw [hlist]
  rfl

theorem linesOf_ne_nil (cs : List Char) : linesOf cs ≠ [] := by
  cases cs with
  | nil => simp [linesOf]
  | cons c cs2 =>
    simp only [linesOf]
    by_cases h : c = '\n'
    · simp [h]
    · simp only [h, if_false]
      cases hl : linesOf cs2 with
      | nil => simp
      | cons l ls => simp

theorem csum_cons (x : List Char) (ls : List (List Char)) :
    csum (x :: ls) = (if startsDash x then 1 else 0) + csum ls := by
  by_cases h : startsDash x <;> simp [csum, List.filter_cons, h, Nat.add_comm]

theorem startsDash_dash_cons (l : List Char) :
    startsDash ('-' :: l) = startsSpace l := by
  cases l with
  | nil => rfl
  | cons d l2 => simp [startsDash, startsSpace]

theorem startsDash_not_dash {c : Char} (h : c ≠ '-') (l : List Char) :
    startsDash (c :: l) = false := by
  cases l with
  | nil => rfl
  | cons d l2 => simp [startsDash, h]

theorem noNLb_not_mem {s : String} (h : noNLb s = true) : '\n' ∉ s.data := by
  intro hm
  have h2 := List.all_eq_true.mp h _ hm
  simp at h2

theorem foldl_mid_of_not_mem : ∀ {l : List Char}, '\n' ∉ l → ∀ n : Nat,
    List.foldl dashStep (n, .mid) l = (n, .mid) := by
  intro l
  induction l with
  | nil => intro _ n; rfl
  | cons c cs ih =>
    intro h n
    simp only [List.mem_cons, not_or] at h
    obtain ⟨h1, h2⟩ := h
    simp only [List.foldl_cons]
    have hd : dashStep (n, .mid) c = (n, .mid) := by
      simp [dashStep, Ne.symm h1]
    rw [hd]
    exact ih h2 n

theorem foldl_g : ∀ (cs : List Char) (n : Nat) (st : LineSt),
    (List.foldl dashStep (n, st) cs).1 = n + gCount st cs := by
  intro cs
  induction cs with
  | nil =>
    intro n st
    cases st <;> simp [gCount, csum, linesOf, startsDash, startsSpace]
  | cons c cs2 ih =>
    intro n st
    simp only [List.foldl_cons]
    by_cases hnl : c = '\n'
    · subst hnl
      have hd : dashStep (n, st) '\n' = (n, LineSt.start) := by
        cases st <;> simp [dashStep]
      rw [hd, ih n .start]
      congr 1
      have hlin : linesOf ('\n' :: cs2) = [] :: linesOf cs2 := by simp [linesOf]
      cases st
      · simp [gCount, hlin, csum_cons, startsDash]
      · simp [gCount, hlin, startsSpace]
      · simp [gCount, hlin]
    · obtain ⟨l, ls, hl⟩ : ∃ l ls, linesOf cs2 = l :: ls := by
        cases hh : linesOf cs2 with
        | nil => exact absurd hh (linesOf_ne_nil cs2)
        | cons l ls => exact ⟨l, ls, rfl⟩
      have hlin : linesOf (c :: cs2) = (c :: l) :: ls := by
        simp [linesOf, hnl, hl]
      cases st with
      | start =>
        by_cases hdash : c = '-'
        · subst hdash
          have hd : dashStep (n, .start) '-' = (n, LineSt.dash) := by
            simp [dashStep]
          rw [hd, ih n .dash]
          congr 1
          simp only [gCount, hl, hlin, csum_cons, startsDash_dash_cons]
        · have hd : dashStep (n, .start) c = (n, LineSt.mid) := by
            simp [dashStep, hnl, hdash]
          rw [hd, ih n .mid]
          congr 1
          simp only [gCount, hl, hlin, csum_cons, startsDash_not_dash hdash]
          simp
      | dash =>
        by_cases hsp : c = ' '
        · subst hsp
          have hd : dashStep (n, .dash) ' ' = (n + 1, LineSt.mid) := by
            simp [dashStep]
          rw [hd, ih (n + 1) .mid]
          simp only [gCount, hl, hlin]
          have hss : startsSpace (' ' :: l) = true := by simp [startsSpace]
          rw [hss]
          simp only [if_true]
          omega
        · have hd : dashStep (n, .dash) c = (n, LineSt.mid) := by
            simp [dashStep, hnl, hsp]
          rw [hd, ih n .mid]
          simp only [gCount, hl, hlin]
          have hss : startsSpace (c :: l) = false := by simp [startsSpace, hsp]
          rw [hss]
          simp
      | mid =>
        have hd : dashStep (n, .mid) c = (n, LineSt.mid) := by
          simp [dashStep, hnl]
        rw [hd, ih n .mid]
        congr 1
        simp only [gCount, hl, hlin]

theorem dashRun_foldl : ∀ (cs : List Char) (n : Nat) (st : LineSt),
    dashRun n st cs = List.foldl dashStep (n, st) cs := by
  intro cs
  induction cs with
  | nil => intro n st; rfl
  | cons c cs2 ih =>
    intro n st
    simp only [List.foldl_cons]
    by_cases hnl : c = '\n'
    · subst hnl
      have h1 : dashStep (n, st) '\n' = (n, LineSt.start) := by
        cases st <;> simp [dashStep]
      have h2 : dashRun n st ('\n' :: cs2) = dashRun n LineSt.start cs2 := by
        cases st <;> simp [dashRun]
      rw [h1, h2, ih]
    · cases st with
      | start =>
        by_cases hd : c = '-'
        · subst hd
          have h1 : dashStep (n, .start) '-' = (n, LineSt.dash) := by
            simp [dashStep]
          have h2 : dashRun n .start ('-' :: cs2) = dashRun n LineSt.dash cs2 := by
            simp [dashRun, hnl]
          rw [h1, h2, ih]
        · have h1 : dashStep (n, .start) c = (n, LineSt.mid) := by
            simp [dashStep, hnl, hd]
          have h2 : dashRun n .start (c :: cs2) = dashRun n LineSt.mid cs2 := by
            simp [dashRun, hnl, hd]
          rw [h1, h2, ih]
      | dash =>
        by_cases hs : c = ' '
        · subst hs
          have h1 : dashStep (n, .dash) ' ' = (n + 1, LineSt.mid) := by
            simp [dashStep]
          have h2 : dashRun n .dash (' ' :: cs2) = dashRun (n + 1) LineSt.mid cs2 := by
            simp [dashRun]
          rw [h1, h2, ih]
        · have h1 : dashStep (n, .dash) c = (n, LineSt.mid) := by
            simp [dashStep, hnl, hs]
          have h2 : dashRun n .dash (c :: cs2) = dashRun n LineSt.mid cs2 := by
            simp [dashRun, hnl, hs]
          rw [h1, h2, ih]
      | mid =>
        have h1 : dashStep (n, .mid) c = (n, LineSt.mid) := by
          simp [dashStep, hnl]
        have h2 : dashRun n .mid (c :: cs2) = dashRun n LineSt.mid cs2 := by
          simp [dashRun, hnl]
        rw [h1, h2, ih]

theorem dashRun_append (a b : List Char) (n : Nat) (st : LineSt) :
    dashRun n st (a ++ b) = dashRun (dashRun n st a).1 (dashRun n st a).2 b := by
  rw [dashRun_foldl (a ++ b) n st, dashRun_foldl a n st, dashRun_foldl b,
    List.foldl_append]

theorem dashFold_eq (s : String) : dashFold s = dashLinesCount s := by
  unfold dashFold dashLinesCount
  rw [dashRun_foldl, foldl_g s.data 0 .start]
  simp [gCount, csum]


theorem dashRun_tplA : ∀ n : Nat,
    dashRun n .start tplA.data = (n, LineSt.mid) := fun _ => rfl

theorem dashRun_tplB : ∀ n : Nat,
    dashRun n .mid tplB.data = (n, LineSt.mid) := fun _ => rfl

theorem dashRun_tplC : ∀ n : Nat,
    dashRun n .mid tplC.data = (n, LineSt.mid) := fun _ => rfl

theorem dashRun_tplD : ∀ n : Nat,
    dashRun n .mid tplD.data = (n, LineSt.mid) := fun _ => rfl

theorem dashRun_tplE : ∀ n : Nat,
    dashRun n .mid tplE.data = (n, LineSt.mid) := fun _ => rfl

theorem dashRun_tplF : ∀ n : Nat,
    dashRun n .mid tplF.data = (n, LineSt.mid) := fun _ => rfl

theorem dashRun_mid_of_not_mem : ∀ {l : List Char}, '\n' ∉ l → ∀ n : Nat,
    dashRun n .mid l = (n, LineSt.mid) := by
  intro l
  induction l with
  | nil => intro _ n; rfl
  | cons c cs ih =>
    intro h n
    simp only [List.mem_cons, not_or] at h
    obtain ⟨h1, h2⟩ := h
    have e : dashRun n .mid (c :: cs) = dashRun n .mid cs := by
      simp [dashRun, Ne.symm h1]
    rw [e]
    exact ih h2 n

theorem hasPrefixC_refl (p : List Char) : hasPrefixC p p = true := by
  induction p with
  | nil => rfl
  | cons a ps ih =>
    show (a == a && hasPrefixC ps ps) = true
    simp [ih]

theorem strContains_suffix (a pat : String) :
    strContains (a ++ pat) pat = true := by
  unfold strContains
  rw [strData_append]
  exact subSearch_append_right _ (subSearch_at_head (hasPrefixC_refl _))

theorem strAppend_assoc (a b c : String) : a ++ b ++ c = a ++ (b ++ c) :=
  eq_of_data_eq (by simp [strData_append, List.append_assoc])

theorem dashRun_lines_start : ∀ (lines : List String), lines ≠ [] →
    (∀ ℓ ∈ lines, lineOK ℓ) → ∀ n : Nat,
    dashRun n .start (joinWith "\n" lines).data = (n + lines.length, LineSt.mid) := by
  intro lines
  induction lines with
  | nil => intro h; exact absurd rfl h
  | cons ℓ ls ih =>
    intro _ hok n
    obtain ⟨rest, hdat, hnl⟩ := hok ℓ (List.mem_cons_self ℓ ls)
    cases ls with
    | nil =>
      show dashRun n .start ℓ.data = _
      rw [hdat]
      have e1 : dashRun n .start ('-' :: ' ' :: rest) = dashRun (n + 1) .mid rest := by
        simp [dashRun]
      rw [e1, dashRun_mid_of_not_mem hnl]
      rfl
    | cons ℓ₂ ls2 =>
      have hj : joinWith "\n" (ℓ :: ℓ₂ :: ls2) =
          ℓ ++ "\n" ++ joinWith "\n" (ℓ₂ :: ls2) := rfl
      have hstep : dashRun n .start (ℓ.data ++ ("\n" : String).data) =
          (n + 1, LineSt.start) := by
        rw [dashRun_append, hdat]
        have e1 : dashRun n .start ('-' :: ' ' :: rest) = dashRun (n + 1) .mid rest := by
          simp [dashRun]
        rw [e1, dashRun_mid_of_not_mem hnl]
        rfl
      rw [hj, strData_append, strData_append, dashRun_append, hstep]
      show dashRun (n + 1) LineSt.start (joinWith "\n" (ℓ₂ :: ls2)).data = _
      rw [ih (List.cons_ne_nil ℓ₂ ls2)
        (fun z hz => hok z (List.mem_cons_of_mem ℓ hz)) (n + 1)]
      simp only [List.length_cons, Prod.mk.injEq, and_true]
      omega

theorem dashRun_lines_mid : ∀ (lines : List String),
    (∀ ℓ ∈ lines, lineOK ℓ) → ∀ n : Nat,
    dashRun n .mid (joinWith "\n" lines).data =
      (n + (lines.length - 1), LineSt.mid) := by
  intro lines hok n
  cases lines with
  | nil => rfl
  | cons ℓ ls =>
    obtain ⟨rest, hdat, hnl⟩ := hok ℓ (List.mem_cons_self ℓ ls)
    have hfl : '\n' ∉ ℓ.data := by
      rw [hdat]
      simp [hnl]
    cases ls with
    | nil =>
      show dashRun n .mid ℓ.data = _
      rw [dashRun_mid_of_not_mem hfl]
      rfl
    | cons ℓ₂ ls2 =>
      have hj : joinWith "\n" (ℓ :: ℓ₂ :: ls2) =
          ℓ ++ "\n" ++ joinWith "\n" (ℓ₂ :: ls2) := rfl
      have hstep : dashRun n .mid (ℓ.data ++ ("\n" : String).data) =
          (n, LineSt.start) := by
        rw [dashRun_append, dashRun_mid_of_not_mem hfl]
        rfl
      rw [hj, strData_append, strData_append, dashRun_append, hstep]
      show dashRun n LineSt.start (joinWith "\n" (ℓ₂ :: ls2)).data = _
      rw [dashRun_lines_start (ℓ₂ :: ls2) (List.cons_ne_nil ℓ₂ ls2)
        (fun z hz => hok z (List.mem_cons_of_mem ℓ hz)) n]
      simp only [List.length_cons, Prod.mk.injEq, and_true]
      omega

theorem joinWith_not_mem {c : Char} {sep : String} (hsep : c ∉ sep.data) :
    ∀ {xs : List String}, (∀ x ∈ xs, c ∉ x.data) →
    c ∉ (joinWith sep xs).data := by
  intro xs
  induction xs with
  | nil => intro _ hm; exact absurd hm (by simp [joinWith])
  | cons x xs2 ih =>
    intro h
    cases xs2 with
    | nil => exact h x (List.mem_cons_self x [])
    | cons y ys =>
      have hj : joinWith sep (x :: y :: ys) = x ++ sep ++ joinWith sep (y :: ys) := rfl
      rw [hj, strData_append, strData_append]
      simp only [List.mem_append, not_or]
      exact ⟨⟨h x (List.mem_cons_self x (y :: ys)), hsep⟩,
        ih (fun z hz => h z (List.mem_cons_of_mem x hz))⟩

theorem specObjectLine_lineOK (so : SceneObject) (h : objNoNL so = true) :
    lineOK (specObjectLine so) := by
  simp only [objNoNL, Bool.and_eq_true] at h
  obtain ⟨⟨⟨h1, h2⟩, h3⟩, h4⟩ := h
  have hre : specObjectLine so = "- " ++ (so.displayName ++ ": Made of " ++
      so.material ++ ". Positioned at: " ++ so.position ++ ". Tags: " ++
      joinWith ", " so.tags ++ ".") := by
    simp [specObjectLine, strAppend_assoc]
  rw [hre]
  refine ⟨(so.displayName ++ ": Made of " ++ so.material ++ ". Positioned at: " ++
      so.position ++ ". Tags: " ++ joinWith ", " so.tags ++ ".").data, ?_, ?_⟩
  · rw [strData_append]
    rfl
  · simp only [strData_append, List.mem_append, not_or]
    exact ⟨⟨⟨⟨⟨⟨⟨noNLb_not_mem h1, by decide⟩, noNLb_not_mem h2⟩, by decide⟩,
      noNLb_not_mem h3⟩, by decide⟩,
      joinWith_not_mem (by decide)
        (fun t ht => noNLb_not_mem (List.all_eq_true.mp h4 t ht))⟩, by decide⟩

/-- Counterexample to C3 as stated: the one-object scene conforms to the data
model with N = 1, yet the rendered prompt contains zero lines starting with
`- ` (the template indents the first object line with four spaces), not
exactly N. -/
theorem c3_counterexample :
    (readScene oneChairScene).map (fun sc => sc.objects.length) = some 1 ∧
    (create_curator_prompt oneChairScene).map dashLinesCount = some 0 := by
  constructor
  · decide
  · have hfun : dashLinesCount = dashFold := funext fun s => (dashFold_eq s).symm
    rw [hfun]
    decide

/-- Claim C3 as amended: for a conforming scene with N objects whose
interpolated free-text fields contain no newline, the object-description
block contains exactly N lines starting with `- ` — each the corresponding
object's line, carrying its displayName, material, position and its tags
joined by a comma-space in original order — while the full rendered prompt
contains exactly N − 1 such lines (none when N = 0), because the template
indents the first object line with four spaces. -/
theorem c3_amended (v : PyVal) (sc : SceneDescription)
    (h : readScene v = some sc) (hnl : sceneNoNL sc = true)
    (p : String) (hp : create_curator_prompt v = some p) :
    dashLinesCount (joinWith "\n" (sc.objects.map specObjectLine)) =
      sc.objects.length ∧
    dashLinesCount p = sc.objects.length - 1 ∧
    ∀ so ∈ sc.objects,
      strContains (specObjectLine so) so.displayName = true ∧
      strContains (specObjectLine so) so.material = true ∧
      strContains (specObjectLine so) so.position = true ∧
      strContains (specObjectLine so) (joinWith ", " so.tags) = true := by
  simp only [sceneNoNL, Bool.and_eq_true] at hnl
  obtain ⟨⟨⟨⟨hn1, hn2⟩, hn3⟩, hn4⟩, hobj⟩ := hnl
  have hlineOK : ∀ ℓ ∈ sc.objects.map specObjectLine, lineOK ℓ := by
    intro ℓ hm
    simp only [List.mem_map] at hm
    obtain ⟨so, hso, rfl⟩ := hm
    exact specObjectLine_lineOK so (List.all_eq_true.mp hobj so hso)
  rw [render_eq v sc h] at hp
  have hp2 := Option.some.inj hp
  subst hp2
  refine ⟨?_, ?_, ?_⟩
  · rw [← dashFold_eq]
    unfold dashFold
    rcases hobjs : sc.objects with _ | ⟨o, os⟩
    · rfl
    · rw [hobjs] at hlineOK
      rw [dashRun_lines_start (List.map specObjectLine (o :: os)) (by simp)
        hlineOK 0]
      simp
  · rw [← dashFold_eq]
    unfold dashFold
    have hsnR : ∀ n : Nat, dashRun n .mid sc.scene_name.data = (n, LineSt.mid) :=
      dashRun_mid_of_not_mem (noNLb_not_mem hn1)
    have hstR : ∀ n : Nat, dashRun n .mid sc.overall_style.data = (n, LineSt.mid) :=
      dashRun_mid_of_not_mem (noNLb_not_mem hn2)
    have hltR : ∀ n : Nat, dashRun n .mid sc.lighting_type.data = (n, LineSt.mid) :=
      dashRun_mid_of_not_mem (noNLb_not_mem hn3)
    have hlsR : ∀ n : Nat, dashRun n .mid sc.lighting_source.data = (n, LineSt.mid) :=
      dashRun_mid_of_not_mem (noNLb_not_mem hn4)
    have hodR : ∀ n : Nat,
        dashRun n .mid (joinWith "\n" (sc.objects.map specObjectLine)).data =
          (n + ((sc.objects.map specObjectLine).length - 1), LineSt.mid) :=
      dashRun_lines_mid (sc.objects.map specObjectLine) hlineOK
    simp only [promptTemplate, strData_append, dashRun_append, dashRun_tplA,
      hsnR, dashRun_tplB, hstR, dashRun_tplC, hltR, dashRun_tplD, hlsR,
      dashRun_tplE, hodR, dashRun_tplF]
    simp [List.length_map]
  · intro so hso
    refine ⟨?_, ?_, ?_, ?_⟩ <;> simp only [specObjectLine]
    · apply strContains_append_left
      apply strContains_append_left
      apply strContains_append_left
      apply strContains_append_left
      apply strContains_append_left
      apply strContains_append_left
      apply strContains_append_left
      exact strContains_suffix _ _
    · apply strContains_append_left
      apply strContains_append_left
      apply strContains_append_left
      apply strContains_append_left
      apply strContains_append_left
      exact strContains_suffix _ _
    · apply strContains_append_left
      apply strContains_append_left
      apply strContains_append_left
      exact strContains_suffix _ _
    · apply strContains_append_left
      exact strContains_suffix _ _

/-- Witness for the amended C3 at the literal scene: the block has five
`- `-initial lines, the prompt four. -/
theorem c3_amended_witness :
    (create_curator_prompt scene_data).map dashLinesCount = some 4 ∧
    dashLinesCount (joinWith "\n" (fixtureScene.objects.map specObjectLine)) = 5 := by
  obtain ⟨p, hp⟩ : ∃ p, create_curator_prompt scene_data = some p := ⟨_, rfl⟩
  obtain ⟨hblock, hprompt, _⟩ :=
    c3_amended scene_data fixtureScene (by decide) (by decide) p hp
  constructor
  · rw [hp, Option.map_some', hprompt]
    rfl
  · rw [hblock]
    rfl
